import Mathlib

/-!
Verification of the shipment-tracking core of the Tracking-System repository.

The definitions below are a shallow embedding of the JavaScript source:
  - the Shipment mongoose model (schema defaults, the two pre-save hooks,
    the instance methods addTrackingEvent / incrementDeliveryAttempts and
    the statics findByUser / findByTrackingNumber),
  - the User mongoose model (incLoginAttempts, resetLoginAttempts,
    updateLastLogin, findByCredentials),
  - the public tracking route projection (GET /track/:trackingNumber,
    anonymous branch) and the shipment-creation route (POST /api/shipments).

Timestamps are modelled as natural numbers (milliseconds since the epoch);
the ambient wall clock is passed explicitly as a `now` argument.  Mongo
persistence is modelled as explicit lists of records; mongoose validation
relevant to the claims (the numeric max bounds on deliveryAttempts and
progress) is modelled by `validateShipment`, and a mongoose field update is
marked "modified" exactly when the assigned value differs from the stored
one, matching mongoose change tracking; schema defaults applied to a new
document are not marked modified, so the progress hook does not fire at the
first save.
-/

/-- The status enumeration shared by tracking events and shipments
(`trackingEventSchema.status` / `shipmentSchema.currentStatus`). -/
inductive ShipmentStatus
  | orderPlaced
  | inTransit
  | outForDelivery
  | delivered
  | returned
  | cancelled
  | exception
deriving DecidableEq

/-- Optional geocoordinates carried by a tracking event.  The numeric values
play no computational role in any claim, so they are embedded as integers. -/
structure Coordinates where
  latitude : Int
  longitude : Int
deriving DecidableEq

/-- The acting-agent identity optionally attached to a tracking event. -/
structure AgentInfo where
  name : String
  id : String
  contact : String
deriving DecidableEq

/-- A stored tracking event (`trackingEventSchema`). -/
structure TrackingEvent where
  status : ShipmentStatus
  location : String
  description : String
  timestamp : Nat
  coordinates : Option Coordinates
  agent : Option AgentInfo
deriving DecidableEq

/-- The event payload passed to `addTrackingEvent`: the timestamp is
optional and defaults to the submission time. -/
structure EventData where
  status : ShipmentStatus
  location : String
  description : String
  timestamp : Option Nat
  coordinates : Option Coordinates
  agent : Option AgentInfo
deriving DecidableEq

/-- A postal address block of the shipment schema. -/
structure Address where
  street : String
  city : String
  state : String
  pincode : String
  country : String
deriving DecidableEq

/-- A sender or recipient party.  The recipient email is optional in the
schema, so it is embedded as an `Option`; for the sender the field is
required and callers supply `some`. -/
structure Party where
  name : String
  email : Option String
  phone : String
  address : Address
deriving DecidableEq

/-- The package descriptor block.  The numeric fields play no computational
role in any claim and are embedded as integers. -/
structure PackageInfo where
  description : String
  weight : Int
  length : Int
  width : Int
  height : Int
  value : Int
  category : String
  isFragile : Bool
  requiresSignature : Bool
deriving DecidableEq

/-- The service descriptor block of the shipment schema. -/
structure ServiceInfo where
  type : String
  priority : String
  cost : Int
  estimatedDelivery : Nat
  isInsured : Bool
  coverage : Int
  premium : Int
deriving DecidableEq

/-- A shipment record (`shipmentSchema`), including the derived/terminal
fields mutated by the tracking operations. -/
structure Shipment where
  trackingNumber : String
  sender : Party
  recipient : Party
  package : PackageInfo
  service : ServiceInfo
  currentStatus : ShipmentStatus
  progress : Nat
  tracking : List TrackingEvent
  paymentStatus : String
  paymentMethod : String
  deliveryAttempts : Nat
  specialInstructions : Option String
  internalNotes : Option String
  assignedAgent : Option String
  createdBy : String
  isActive : Bool
  deliveredAt : Option Nat
  returnedAt : Option Nat
  cancelledAt : Option Nat
  cancellationReason : Option String
  createdAt : Nat
deriving DecidableEq

/-- The `statusProgress` object built inside the progress pre-save hook.
Its value at `Exception` is the shipment's current progress (`this.progress`),
passed here as `cur`; every other status is mapped to a fixed constant. -/
def statusProgress (cur : Nat) : ShipmentStatus → Nat
  | ShipmentStatus.orderPlaced => 10
  | ShipmentStatus.inTransit => 50
  | ShipmentStatus.outForDelivery => 80
  | ShipmentStatus.delivered => 100
  | ShipmentStatus.returned => 100
  | ShipmentStatus.cancelled => 0
  | ShipmentStatus.exception => cur

/-- The progress pre-save hook: when `currentStatus` was modified since the
last save, progress is recomputed from the `statusProgress` mapping. -/
def progressHook (statusModified : Bool) (s : Shipment) : Shipment :=
  if statusModified then
    { s with progress := statusProgress s.progress s.currentStatus }
  else s

/-- The stored tracking event built by `addTrackingEvent` from its payload:
the timestamp defaults to the submission time when absent. -/
def toTrackingEvent (e : EventData) (now : Nat) : TrackingEvent :=
  { status := e.status
    location := e.location
    description := e.description
    timestamp := e.timestamp.getD now
    coordinates := e.coordinates
    agent := e.agent }

/-- The terminal-timestamp block of `addTrackingEvent`: Delivered, Returned
and Cancelled events stamp the matching terminal timestamp with the event
timestamp (submission time when absent), and a Cancelled event additionally
stores the event description as the cancellation reason. -/
def stampTerminal (s1 : Shipment) (e : EventData) (now : Nat) : Shipment :=
  match e.status with
  | ShipmentStatus.delivered => { s1 with deliveredAt := some (e.timestamp.getD now) }
  | ShipmentStatus.returned => { s1 with returnedAt := some (e.timestamp.getD now) }
  | ShipmentStatus.cancelled =>
      { s1 with cancelledAt := some (e.timestamp.getD now)
                cancellationReason := some e.description }
  | _ => s1

/-- `shipmentSchema.methods.addTrackingEvent` followed by the save it
triggers: pushes the event, sets the current status, stamps the terminal
fields, then runs the progress pre-save hook.  `currentStatus` counts as
modified exactly when the event status differs from the stored one. -/
def addTrackingEvent (s : Shipment) (e : EventData) (now : Nat) : Shipment :=
  let statusModified : Bool := decide (¬ e.status = s.currentStatus)
  let s1 := { s with
    tracking := s.tracking ++ [toTrackingEvent e now]
    currentStatus := e.status }
  progressHook statusModified (stampTerminal s1 e now)

/-- Iterates `addTrackingEvent` over a list of (payload, submission-time)
pairs, modelling a sequence of persisted recordEvent calls. -/
def runEvents (s : Shipment) : List (EventData × Nat) → Shipment
  | [] => s
  | e :: rest => runEvents (addTrackingEvent s e.1 e.2) rest

/-- The synthetic first tracking event pushed by the POST /api/shipments
handler: location is the sender's city/state pair and the description is the
standard placement message. -/
def initialTrackingEvent (sender : Party) (now : Nat) : TrackingEvent :=
  { status := ShipmentStatus.orderPlaced
    location := sender.address.city ++ ", " ++ sender.address.state
    description := "Shipment order has been placed and is being processed"
    timestamp := now
    coordinates := none
    agent := none }

/-- Shipment creation as performed by the POST /api/shipments handler plus
the first save: schema defaults are applied (`Order Placed`, progress 0,
active, zero delivery attempts) and the synthetic initial event is pushed.
The handler never assigns `currentStatus` — it is only a schema default,
and mongoose does not mark default-applied paths as modified — so the
progress pre-save hook runs with `isModified` false at the first save and
the shipment persists with the schema default progress 0.  The tracking
number is the one assigned by the generator pre-save hook, passed in
here. -/
def createShipment (sender recipient : Party) (pkg : PackageInfo) (svc : ServiceInfo)
    (createdBy trackingNumber : String) (now createdAt : Nat) : Shipment :=
  let base : Shipment := {
    trackingNumber := trackingNumber
    sender := sender
    recipient := recipient
    package := pkg
    service := svc
    currentStatus := ShipmentStatus.orderPlaced
    progress := 0
    tracking := [initialTrackingEvent sender now]
    paymentStatus := "pending"
    paymentMethod := "online"
    deliveryAttempts := 0
    specialInstructions := none
    internalNotes := none
    assignedAgent := none
    createdBy := createdBy
    isActive := true
    deliveredAt := none
    returnedAt := none
    cancelledAt := none
    cancellationReason := none
    createdAt := createdAt }
  progressHook false base

/-- The mongoose numeric validation relevant to the claims: the schema caps
`deliveryAttempts` at 3 and `progress` at 100. -/
def validateShipment (s : Shipment) : Bool :=
  s.deliveryAttempts ≤ 3 && s.progress ≤ 100

/-- A document save: the document persists exactly when schema validation
passes. -/
def saveShipment (s : Shipment) : Option Shipment :=
  if validateShipment s then some s else none

/-- The payload of the automatic Exception event emitted by
`incrementDeliveryAttempts` when the counter reaches the cap. -/
def maxAttemptsEventData : EventData :=
  { status := ShipmentStatus.exception
    location := "Delivery Center"
    description := "Maximum delivery attempts reached. Package being returned to sender."
    timestamp := none
    coordinates := none
    agent := none }

/-- `shipmentSchema.methods.incrementDeliveryAttempts`: bumps the counter,
emits the automatic Exception event through `addTrackingEvent` when the
counter has reached 3, and saves (so a bump past the schema cap of 3 fails
validation and persists nothing). -/
def incrementDeliveryAttempts (s : Shipment) (now : Nat) : Option Shipment :=
  let s1 := { s with deliveryAttempts := s.deliveryAttempts + 1 }
  let s2 :=
    if s1.deliveryAttempts ≥ 3 then addTrackingEvent s1 maxAttemptsEventData now
    else s1
  saveShipment s2

/-- JavaScript `String.prototype.toUpperCase` restricted to the characters
the model needs: uppercases each character. -/
def jsToUpper (s : String) : String := List.asString (s.data.map Char.toUpper)

/-- JavaScript `String.prototype.toLowerCase`: lowercases each character. -/
def jsToLower (s : String) : String := List.asString (s.data.map Char.toLower)

/-- `shipmentSchema.statics.findByTrackingNumber`: uppercases the query and
returns the first active shipment carrying that tracking number, if any.
The backing store is modelled as the list of all shipment documents. -/
def findByTrackingNumber (db : List Shipment) (tn : String) : Option Shipment :=
  db.find? (fun s => s.trackingNumber == jsToUpper tn && s.isActive)

/-- The newest-first order used by `findByUser` (`sort({ createdAt: -1 })`). -/
def newestFirst (a b : Shipment) : Prop := b.createdAt ≤ a.createdAt

instance : DecidableRel newestFirst := fun a b => Nat.decLe b.createdAt a.createdAt

instance : IsTotal Shipment newestFirst := ⟨fun a b => Nat.le_total b.createdAt a.createdAt⟩

instance : IsTrans Shipment newestFirst := ⟨fun _ _ _ h1 h2 => Nat.le_trans h2 h1⟩

/-- `shipmentSchema.statics.findByUser`: active shipments whose creator
reference, sender email, or recipient email equals the single `userId`
argument, sorted newest-first by creation time. -/
def findByUser (db : List Shipment) (userId : String) : List Shipment :=
  List.insertionSort newestFirst
    (db.filter (fun s =>
      (s.createdBy == userId || s.sender.email == some userId
        || s.recipient.email == some userId) && s.isActive))

/-- An account as seen by claim C8: its identifier and registered email. -/
structure Account where
  id : String
  email : String
deriving DecidableEq

/-- The C8 claim text, formalised for comparison with `findByUser`: active
shipments where the account is the creator, or where the account's
registered email equals the sender's or recipient's contact email,
newest-first. -/
def findByUserClaimed (db : List Shipment) (acct : Account) : List Shipment :=
  List.insertionSort newestFirst
    (db.filter (fun s =>
      (s.createdBy == acct.id || s.sender.email == some acct.email
        || s.recipient.email == some acct.email) && s.isActive))

/-- The tracking-number generator pre-save hook: draws 9-digit candidates
from the supplied random stream until one is absent from the store.  The
JavaScript loop is unbounded; the embedding adds explicit fuel, returning
`none` only when the fuel runs out.  `draws i` models the value of
`Math.floor(Math.random() * 900000000) + 100000000` at the i-th iteration,
and `existing` the tracking numbers of all stored shipments (the existence
check has no active-flag filter). -/
def genTrackingNumber (existing : List String) (draws : Nat → Nat) : Nat → Option String
  | 0 => none
  | fuel + 1 =>
    let tn := "IND" ++ toString (draws 0)
    if existing.contains tn then
      genTrackingNumber existing (fun i => draws (i + 1)) fuel
    else some tn

/-- The regular expression ^[A-Z]{3}\d{9}$ as a predicate on strings: three
uppercase letters followed by nine decimal digits. -/
def matchesTrackingPattern (tn : String) : Bool :=
  ((tn.data.take 3).length == 3) && (tn.data.take 3).all Char.isUpper
    && ((tn.data.drop 3).length == 9) && (tn.data.drop 3).all Char.isDigit

/-- The `isDelayed` virtual: false once delivered, otherwise true exactly
when the current time is past the estimated delivery. -/
def Shipment.isDelayed (s : Shipment) (now : Nat) : Bool :=
  if s.currentStatus = ShipmentStatus.delivered then false
  else decide (s.service.estimatedDelivery < now)

/-- A tracking event as redacted for anonymous callers by the public branch
of GET /track/:trackingNumber: status, location, description and timestamp
only. -/
structure PublicTrackingEvent where
  status : ShipmentStatus
  location : String
  description : String
  timestamp : Nat
deriving DecidableEq

/-- The per-event redaction applied by the anonymous response. -/
def redactEvent (e : TrackingEvent) : PublicTrackingEvent :=
  { status := e.status
    location := e.location
    description := e.description
    timestamp := e.timestamp }

/-- The complete shape of the anonymous (unauthenticated) tracking response:
these are the only fields the public branch returns. -/
structure AnonymousTrackResponse where
  trackingNumber : String
  currentStatus : ShipmentStatus
  progress : Nat
  tracking : List PublicTrackingEvent
  estimatedDelivery : Nat
  isDelayed : Bool
  serviceType : String
deriving DecidableEq

/-- The anonymous branch of GET /track/:trackingNumber: the projection of a
shipment returned to an unauthenticated caller. -/
def anonymousTrackResponse (s : Shipment) (now : Nat) : AnonymousTrackResponse :=
  { trackingNumber := s.trackingNumber
    currentStatus := s.currentStatus
    progress := s.progress
    tracking := s.tracking.map redactEvent
    estimatedDelivery := s.service.estimatedDelivery
    isDelayed := s.isDelayed now
    serviceType := s.service.type }

/-- A user account document (`userSchema`), restricted to the fields the
credential and lockout logic reads and writes.  `password` holds the stored
bcrypt hash. -/
structure User where
  id : String
  email : String
  password : String
  isActive : Bool
  loginAttempts : Nat
  lockUntil : Option Nat
  lastLogin : Option Nat
deriving DecidableEq

/-- The `isLocked` virtual: a lock timestamp exists and lies strictly in the
future. -/
def User.isLocked (u : User) (now : Nat) : Bool :=
  match u.lockUntil with
  | some t => decide (now < t)
  | none => false

/-- The `this.lockUntil && this.lockUntil < Date.now()` test of
`incLoginAttempts`: a lock exists and has already expired. -/
def User.lockExpired (u : User) (now : Nat) : Bool :=
  match u.lockUntil with
  | some t => decide (t < now)
  | none => false

/-- The failed-login cap of `incLoginAttempts`. -/
def maxLoginAttempts : Nat := 5

/-- The lock duration of `incLoginAttempts`: two hours in milliseconds. -/
def lockTimeMs : Nat := 2 * 60 * 60 * 1000

/-- `userSchema.methods.incLoginAttempts`: restart at one attempt when a
previous lock has expired, otherwise increment and set the lock when the
post-increment count reaches the cap on an unlocked account. -/
def User.incLoginAttempts (u : User) (now : Nat) : User :=
  if u.lockExpired now then
    { u with lockUntil := none, loginAttempts := 1 }
  else
    let u1 := { u with loginAttempts := u.loginAttempts + 1 }
    if u.loginAttempts + 1 ≥ maxLoginAttempts && !(u.isLocked now) then
      { u1 with lockUntil := some (now + lockTimeMs) }
    else u1

/-- `userSchema.methods.resetLoginAttempts`: unsets the counter and the lock
(an unset counter reads back as the schema default zero). -/
def User.resetLoginAttempts (u : User) : User :=
  { u with loginAttempts := 0, lockUntil := none }

/-- `userSchema.methods.updateLastLogin`. -/
def User.updateLastLogin (u : User) (now : Nat) : User :=
  { u with lastLogin := some now }

/-- The authentication errors thrown by `findByCredentials`: the generic
invalid-credentials error and the distinct locked-account error. -/
inductive AuthError
  | invalidCredentials
  | accountLocked
deriving DecidableEq

/-- The account lookup of `findByCredentials`: lowercased email, active
accounts only. -/
def findUserForLogin (db : List User) (email : String) : Option User :=
  db.find? (fun u => u.email == jsToLower email && u.isActive)

/-- Replaces a user document in the store by identifier. -/
def updateUser (db : List User) (id : String) (nu : User) : List User :=
  db.map (fun v => if v.id == id then nu else v)

/-- `userSchema.statics.findByCredentials`: looks the account up by
lowercased email among active accounts, rejects a locked account outright,
books a failed attempt on password mismatch, and on success resets the
counter (when positive) and stamps the last login.  `compare` is the
external bcrypt comparison of candidate password against stored hash; the
returned document is the one read (mongoose `updateOne` writes the store,
not the in-memory document), while the second component is the store after
the writes. -/
def findByCredentials (db : List User) (compare : String → String → Bool)
    (email password : String) (now : Nat) : Except AuthError User × List User :=
  match findUserForLogin db email with
  | none => (Except.error AuthError.invalidCredentials, db)
  | some u =>
    if u.isLocked now then
      (Except.error AuthError.accountLocked, db)
    else if !(compare password u.password) then
      (Except.error AuthError.invalidCredentials, updateUser db u.id (u.incLoginAttempts now))
    else
      let afterReset := if u.loginAttempts > 0 then u.resetLoginAttempts else u
      (Except.ok u, updateUser db u.id (afterReset.updateLastLogin now))

/-! Concrete fixtures used by the witness theorems. -/

/-- A concrete address. -/
def exAddress : Address :=
  { street := "1 MG Road", city := "Mumbai", state := "Maharashtra",
    pincode := "400001", country := "India" }

/-- A concrete sender. -/
def exSender : Party :=
  { name := "Asha", email := some "asha@example.com", phone := "9876543210",
    address := exAddress }

/-- A concrete recipient. -/
def exRecipient : Party :=
  { name := "Ravi", email := some "ravi@example.com", phone := "9123456780",
    address := exAddress }

/-- A concrete package block. -/
def exPkg : PackageInfo :=
  { description := "Books", weight := 2, length := 30, width := 20, height := 10,
    value := 500, category := "Documents", isFragile := false, requiresSignature := false }

/-- A concrete service block. -/
def exSvc : ServiceInfo :=
  { type := "standard", priority := "normal", cost := 100,
    estimatedDelivery := 1700003456789, isInsured := false, coverage := 0, premium := 0 }

/-- A concrete freshly created shipment. -/
def exShipBase : Shipment :=
  createShipment exSender exRecipient exPkg exSvc "u1" "IND123456789" 1000 1000

/-- A concrete In Transit event payload. -/
def exEventInTransit : EventData :=
  { status := ShipmentStatus.inTransit, location := "Pune", description := "En route",
    timestamp := some 2000, coordinates := none, agent := none }

/-- A concrete Exception event payload. -/
def exEventException : EventData :=
  { status := ShipmentStatus.exception, location := "Pune", description := "Weather delay",
    timestamp := none, coordinates := none, agent := none }

/-- A concrete event sequence ending in an Exception event. -/
def exEvents : List (EventData × Nat) := [(exEventInTransit, 2000), (exEventException, 3000)]

/-- A concrete event payload repeating the Order Placed status a fresh
shipment already carries. -/
def exEventOrderPlaced : EventData :=
  { status := ShipmentStatus.orderPlaced, location := "Mumbai", description := "Re-scan",
    timestamp := some 2000, coordinates := none, agent := none }

/-- A concrete stored tracking event carrying an agent identity. -/
def exAgentEvent : TrackingEvent :=
  { status := ShipmentStatus.orderPlaced, location := "Mumbai, Maharashtra",
    description := "Placed", timestamp := 1000, coordinates := none,
    agent := some { name := "Agent K", id := "a1", contact := "k@example.com" } }

/-- A concrete shipment whose only tracking event carries an agent identity. -/
def exShipVisibleA : Shipment := { exShipBase with tracking := [exAgentEvent] }

/-- A shipment equal to `exShipVisibleA` on every anonymously visible field
but different in sender, package, service cost, per-event agent identity and
per-event coordinates. -/
def exShipVisibleB : Shipment :=
  { exShipBase with
    sender := { exSender with name := "Someone Else", email := some "other@example.com" }
    package := { exPkg with value := 999999 }
    service := { exSvc with cost := 5000 }
    tracking := [{ exAgentEvent with
                   agent := none
                   coordinates := some { latitude := 19, longitude := 72 } }] }

/-- A concrete active user one failed attempt away from the lockout cap. -/
def exUserNearLock : User :=
  { id := "u1", email := "asha@example.com", password := "hashed-secret",
    isActive := true, loginAttempts := 4, lockUntil := none, lastLogin := none }

/-- A store holding only `exUserNearLock`. -/
def exUserDb : List User := [exUserNearLock]

/-- A concrete deactivated user whose stored hash the comparison oracle
accepts. -/
def exUserInactive : User :=
  { id := "u2", email := "ravi@example.com", password := "pw",
    isActive := false, loginAttempts := 2, lockUntil := none, lastLogin := none }

/-- A store holding only `exUserInactive`. -/
def exUserDbInactive : List User := [exUserInactive]

/-- A shipment store holding only the active `exShipBase`. -/
def exShipDb : List Shipment := [exShipBase]

/-- A shipment created by account u2 whose sender contact email is the email
account u1 registered with. -/
def exShipForeign : Shipment :=
  { exShipBase with
    createdBy := "u2"
    sender := { exSender with email := some "alice@example.com" }
    recipient := { exRecipient with email := none } }

/-- A store holding only `exShipForeign`. -/
def exShipDbForeign : List Shipment := [exShipForeign]

/-- The account of the C8 counterexample: registered with the sender email
of `exShipForeign` but not its creator. -/
def exAcct : Account := { id := "u1", email := "alice@example.com" }

/-- A concrete shipment with two delivery attempts already booked. -/
def exShipTwoAttempts : Shipment := { exShipBase with deliveryAttempts := 2 }

/-- The state `incrementDeliveryAttempts` persists for `exShipTwoAttempts`. -/
def exShipThirdAttempt : Shipment :=
  addTrackingEvent { exShipTwoAttempts with deliveryAttempts := 3 } maxAttemptsEventData 5000

/-- A store already holding tracking number IND100000000. -/
def exExisting : List String := ["IND100000000"]

/-- A random stream whose first draw collides with `exExisting` and whose
second does not. -/
def exDraws : Nat → Nat := fun i => 100000000 + min i 1

/-! Helper lemmas about the shipment transition. -/

/-- The progress hook only ever writes the progress field. -/
theorem progressHook_proj (b : Bool) (s : Shipment) :
    (progressHook b s).tracking = s.tracking ∧
    (progressHook b s).currentStatus = s.currentStatus ∧
    (progressHook b s).deliveredAt = s.deliveredAt ∧
    (progressHook b s).returnedAt = s.returnedAt ∧
    (progressHook b s).cancelledAt = s.cancelledAt ∧
    (progressHook b s).cancellationReason = s.cancellationReason ∧
    (progressHook b s).deliveryAttempts = s.deliveryAttempts := by
  cases b <;> simp [progressHook]

/-- The value the progress hook leaves in the progress field. -/
theorem progressHook_progress (b : Bool) (s : Shipment) :
    (progressHook b s).progress =
      if b then statusProgress s.progress s.currentStatus else s.progress := by
  cases b <;> simp [progressHook]

/-- The terminal-stamp step never touches status, progress, tracking or the
delivery-attempt counter. -/
theorem stampTerminal_proj (s : Shipment) (e : EventData) (now : Nat) :
    (stampTerminal s e now).currentStatus = s.currentStatus ∧
    (stampTerminal s e now).progress = s.progress ∧
    (stampTerminal s e now).tracking = s.tracking ∧
    (stampTerminal s e now).deliveryAttempts = s.deliveryAttempts := by
  cases he : e.status <;> simp [stampTerminal, he]

/-- The terminal fields written by the terminal-stamp step. -/
theorem stampTerminal_fields (s : Shipment) (e : EventData) (now : Nat) :
    (stampTerminal s e now).deliveredAt =
      (if e.status = ShipmentStatus.delivered then some (e.timestamp.getD now)
       else s.deliveredAt) ∧
    (stampTerminal s e now).returnedAt =
      (if e.status = ShipmentStatus.returned then some (e.timestamp.getD now)
       else s.returnedAt) ∧
    (stampTerminal s e now).cancelledAt =
      (if e.status = ShipmentStatus.cancelled then some (e.timestamp.getD now)
       else s.cancelledAt) ∧
    (stampTerminal s e now).cancellationReason =
      (if e.status = ShipmentStatus.cancelled then some e.description
       else s.cancellationReason) := by
  cases he : e.status <;> simp [stampTerminal, he]

/-- The status written by a tracking event is the event's status. -/
theorem addTrackingEvent_currentStatus (s : Shipment) (e : EventData) (now : Nat) :
    (addTrackingEvent s e now).currentStatus = e.status := by
  unfold addTrackingEvent
  rw [(progressHook_proj _ _).2.1, (stampTerminal_proj _ _ _).1]

/-- A tracking event append pushes exactly one stored event at the tail. -/
theorem addTrackingEvent_tracking (s : Shipment) (e : EventData) (now : Nat) :
    (addTrackingEvent s e now).tracking = s.tracking ++ [toTrackingEvent e now] := by
  unfold addTrackingEvent
  rw [(progressHook_proj _ _).1, (stampTerminal_proj _ _ _).2.2.1]

/-- A tracking event append never touches the delivery-attempt counter. -/
theorem addTrackingEvent_deliveryAttempts (s : Shipment) (e : EventData) (now : Nat) :
    (addTrackingEvent s e now).deliveryAttempts = s.deliveryAttempts := by
  unfold addTrackingEvent
  rw [(progressHook_proj _ _).2.2.2.2.2.2, (stampTerminal_proj _ _ _).2.2.2]

/-- Computation of the progress written by a tracking event append. -/
theorem addTrackingEvent_progress_eq (s : Shipment) (e : EventData) (now : Nat) :
    (addTrackingEvent s e now).progress =
      if e.status = s.currentStatus then s.progress
      else statusProgress s.progress e.status := by
  unfold addTrackingEvent
  rw [progressHook_progress]
  rw [(stampTerminal_proj _ _ _).1, (stampTerminal_proj _ _ _).2.1]
  by_cases hc : e.status = s.currentStatus <;> simp [hc]

/-- Running an event sequence splits across list append. -/
theorem runEvents_append (s : Shipment) (l1 l2 : List (EventData × Nat)) :
    runEvents s (l1 ++ l2) = runEvents (runEvents s l1) l2 := by
  induction l1 generalizing s with
  | nil => rfl
  | cons e rest ih => simp [runEvents, ih]

/-- Running an event sequence appends exactly the stored forms of the
events, in order. -/
theorem runEvents_tracking (evs : List (EventData × Nat)) (s : Shipment) :
    (runEvents s evs).tracking =
      s.tracking ++ evs.map (fun p => toTrackingEvent p.1 p.2) := by
  induction evs generalizing s with
  | nil => simp [runEvents]
  | cons e rest ih =>
    simp [runEvents, ih, addTrackingEvent_tracking]

/-- A freshly created shipment persists at Order Placed with the schema
default progress 0 (the progress hook does not fire at the first save) and
exactly the synthetic initial event. -/
theorem createShipment_fields (sender recipient : Party) (pkg : PackageInfo)
    (svc : ServiceInfo) (createdBy trackingNumber : String) (now createdAt : Nat) :
    (createShipment sender recipient pkg svc createdBy trackingNumber now createdAt).currentStatus
        = ShipmentStatus.orderPlaced ∧
    (createShipment sender recipient pkg svc createdBy trackingNumber now createdAt).progress = 0 ∧
    (createShipment sender recipient pkg svc createdBy trackingNumber now createdAt).tracking
        = [initialTrackingEvent sender now] ∧
    (createShipment sender recipient pkg svc createdBy trackingNumber now createdAt).deliveryAttempts
        = 0 := by
  refine ⟨rfl, ?_, rfl, rfl⟩
  simp [createShipment, progressHook]

/-- The fixed mapping does not depend on the current-progress argument away
from Exception. -/
theorem statusProgress_irrel (a b : Nat) (st : ShipmentStatus)
    (h : st ≠ ShipmentStatus.exception) : statusProgress a st = statusProgress b st := by
  cases st <;> first | rfl | exact absurd rfl h

/-- C1 counterexample: a freshly created shipment persists with the schema
default progress 0, because the handler never assigns `currentStatus` and
mongoose does not mark default-applied paths as modified; appending an
event that repeats the stored Order Placed status leaves the status
unmodified again, so after this persisted non-Exception call the progress
(still 0) differs from the fixed mapping of the current status (10). -/
theorem progress_matches_status_mapping_counterexample :
    exEventOrderPlaced.status ≠ ShipmentStatus.exception ∧
    (runEvents exShipBase [(exEventOrderPlaced, 2000)]).currentStatus
      = exEventOrderPlaced.status ∧
    ¬ (runEvents exShipBase [(exEventOrderPlaced, 2000)]).progress
        = statusProgress 0 (runEvents exShipBase [(exEventOrderPlaced, 2000)]).currentStatus := by
  refine ⟨by decide, by decide, by decide⟩

/-- C1 as amended: for every created shipment and every sequence of
persisted addTrackingEvent calls, the progress after each call is the fixed
status-to-progress mapping (statusProgress with an irrelevant first
argument) applied to the appended event's status — which is also the
shipment's current status after the call — except when the event's status
is Exception or repeats the shipment's status from immediately before the
event: in both cases the hook leaves progress at its value immediately
before the event (in particular, leading Order Placed repeats keep the
schema default progress 0 a fresh shipment persists with). -/
theorem progress_matches_status_mapping_amended (sender recipient : Party) (pkg : PackageInfo)
    (svc : ServiceInfo) (createdBy trackingNumber : String) (now createdAt : Nat)
    (events : List (EventData × Nat)) (k : Nat) (hk : k < events.length) :
    (runEvents (createShipment sender recipient pkg svc createdBy trackingNumber now createdAt)
        (events.take (k + 1))).currentStatus = (events.get ⟨k, hk⟩).1.status ∧
    (runEvents (createShipment sender recipient pkg svc createdBy trackingNumber now createdAt)
        (events.take (k + 1))).progress =
      (if (events.get ⟨k, hk⟩).1.status = ShipmentStatus.exception
          ∨ (events.get ⟨k, hk⟩).1.status
            = (runEvents (createShipment sender recipient pkg svc createdBy trackingNumber now
                createdAt) (events.take k)).currentStatus then
        (runEvents (createShipment sender recipient pkg svc createdBy trackingNumber now createdAt)
          (events.take k)).progress
      else statusProgress 0 (events.get ⟨k, hk⟩).1.status) := by
  have htake : events.take (k + 1) = events.take k ++ [events.get ⟨k, hk⟩] := by
    rw [List.take_succ]
    congr 1
    rw [List.getElem?_eq_getElem hk]
    rfl
  rw [htake, runEvents_append]
  refine ⟨addTrackingEvent_currentStatus _ _ _, ?_⟩
  show (addTrackingEvent _ _ _).progress = _
  rw [addTrackingEvent_progress_eq]
  by_cases hc2 : (events.get ⟨k, hk⟩).1.status
      = (runEvents (createShipment sender recipient pkg svc createdBy trackingNumber now
          createdAt) (events.take k)).currentStatus
  · rw [if_pos hc2, if_pos (Or.inr hc2)]
  · rw [if_neg hc2]
    by_cases hexc : (events.get ⟨k, hk⟩).1.status = ShipmentStatus.exception
    · rw [if_pos (Or.inl hexc), hexc]
      rfl
    · have hni : ¬ ((events.get ⟨k, hk⟩).1.status = ShipmentStatus.exception
          ∨ (events.get ⟨k, hk⟩).1.status
            = (runEvents (createShipment sender recipient pkg svc createdBy trackingNumber now
                createdAt) (events.take k)).currentStatus) :=
        fun hor => hor.elim hexc hc2
      rw [if_neg hni]
      exact statusProgress_irrel _ 0 _ hexc

/-- Witness for the amended C1: a concrete shipment and a concrete
two-event sequence whose second event is an Exception, keeping the prior
progress. -/
theorem progress_matches_status_mapping_amended_witness :
    1 < exEvents.length ∧
    (runEvents (createShipment exSender exRecipient exPkg exSvc "u1" "IND123456789" 1000 1000)
        (exEvents.take 2)).progress =
      (runEvents (createShipment exSender exRecipient exPkg exSvc "u1" "IND123456789" 1000 1000)
        (exEvents.take 1)).progress := by
  refine ⟨by decide, ?_⟩
  have h := progress_matches_status_mapping_amended exSender exRecipient exPkg exSvc "u1"
    "IND123456789" 1000 1000 exEvents 1 (by decide)
  rw [h.2]
  decide

/-- C2: a Delivered, Returned or Cancelled event stamps the corresponding
terminal timestamp with the event timestamp (the submission time when the
payload carries none), and a Cancelled event additionally stores its
description as the shipment's cancellation reason; any other status leaves
these fields unchanged. -/
theorem addTrackingEvent_terminal_stamps (s : Shipment) (e : EventData) (now : Nat) :
    (addTrackingEvent s e now).deliveredAt =
      (if e.status = ShipmentStatus.delivered then some (e.timestamp.getD now)
       else s.deliveredAt) ∧
    (addTrackingEvent s e now).returnedAt =
      (if e.status = ShipmentStatus.returned then some (e.timestamp.getD now)
       else s.returnedAt) ∧
    (addTrackingEvent s e now).cancelledAt =
      (if e.status = ShipmentStatus.cancelled then some (e.timestamp.getD now)
       else s.cancelledAt) ∧
    (addTrackingEvent s e now).cancellationReason =
      (if e.status = ShipmentStatus.cancelled then some e.description
       else s.cancellationReason) := by
  unfold addTrackingEvent
  refine ⟨?_, ?_, ?_, ?_⟩
  · rw [(progressHook_proj _ _).2.2.1, (stampTerminal_fields _ _ _).1]
  · rw [(progressHook_proj _ _).2.2.2.1, (stampTerminal_fields _ _ _).2.1]
  · rw [(progressHook_proj _ _).2.2.2.2.1, (stampTerminal_fields _ _ _).2.2.1]
  · rw [(progressHook_proj _ _).2.2.2.2.2.1, (stampTerminal_fields _ _ _).2.2.2]

/-- A successful save returns the document unchanged and certifies that
validation passed. -/
theorem saveShipment_some (x y : Shipment) (h : saveShipment x = some y) :
    y = x ∧ validateShipment x = true := by
  unfold saveShipment at h
  split at h
  next hv => exact ⟨(Option.some.inj h).symm, hv⟩
  next => cases h

/-- C4: a newly created shipment carries exactly the synthetic Order Placed
event (whose location is the sender's city/state, by definition of
initialTrackingEvent), appending N tracking events yields the 1 + N stored
events in append order, and the delivery-attempt operation also only ever
appends to the event sequence. -/
theorem tracking_sequence_append_only (sender recipient : Party) (pkg : PackageInfo)
    (svc : ServiceInfo) (createdBy trackingNumber : String) (now createdAt : Nat)
    (events : List (EventData × Nat)) :
    (runEvents (createShipment sender recipient pkg svc createdBy trackingNumber now createdAt)
        events).tracking
      = initialTrackingEvent sender now :: events.map (fun p => toTrackingEvent p.1 p.2) ∧
    (runEvents (createShipment sender recipient pkg svc createdBy trackingNumber now createdAt)
        events).tracking.length = 1 + events.length ∧
    (∀ s s2 : Shipment, ∀ t : Nat, incrementDeliveryAttempts s t = some s2 →
      ∃ tail, s2.tracking = s.tracking ++ tail) := by
  have hcf := createShipment_fields sender recipient pkg svc createdBy trackingNumber now createdAt
  have h1 : (runEvents (createShipment sender recipient pkg svc createdBy trackingNumber now
      createdAt) events).tracking
      = initialTrackingEvent sender now :: events.map (fun p => toTrackingEvent p.1 p.2) := by
    rw [runEvents_tracking, hcf.2.2.1]
    rfl
  refine ⟨h1, ?_, ?_⟩
  · rw [h1]
    simp [Nat.add_comm]
  · intro s s2 t h
    unfold incrementDeliveryAttempts at h
    obtain ⟨h2, -⟩ := saveShipment_some _ _ h
    subst h2
    by_cases hc : ({ s with deliveryAttempts := s.deliveryAttempts + 1 } : Shipment).deliveryAttempts ≥ 3
    · rw [if_pos hc, addTrackingEvent_tracking]
      exact ⟨[toTrackingEvent maxAttemptsEventData t], rfl⟩
    · rw [if_neg hc]
      exact ⟨[], (List.append_nil _).symm⟩

/-- Witness for C4: the concrete two-event run has exactly 1 + 2 stored
events, and a concrete delivery-attempt bump only appends. -/
theorem tracking_sequence_append_only_witness :
    (runEvents (createShipment exSender exRecipient exPkg exSvc "u1" "IND123456789" 1000 1000)
        exEvents).tracking.length = 1 + exEvents.length ∧
    (∃ tail, exShipThirdAttempt.tracking = exShipTwoAttempts.tracking ++ tail) := by
  have h := tracking_sequence_append_only exSender exRecipient exPkg exSvc "u1" "IND123456789"
    1000 1000 exEvents
  exact ⟨h.2.1, h.2.2 exShipTwoAttempts exShipThirdAttempt 5000 (by decide)⟩

/-- C9: a persisted delivery-attempt bump increments the counter by exactly
one, the persisted counter never exceeds the schema cap of 3, and on
reaching 3 the operation appends the standard max-attempts Exception event
through the ordinary tracking transition, leaving progress unchanged. -/
theorem incrementDeliveryAttempts_contract (s : Shipment) (now : Nat) (s2 : Shipment)
    (h : incrementDeliveryAttempts s now = some s2) :
    s2.deliveryAttempts = s.deliveryAttempts + 1 ∧
    s2.deliveryAttempts ≤ 3 ∧
    (s2.deliveryAttempts = 3 →
      s2.tracking = s.tracking ++ [toTrackingEvent maxAttemptsEventData now] ∧
      s2.currentStatus = ShipmentStatus.exception ∧
      s2.progress = s.progress) := by
  unfold incrementDeliveryAttempts at h
  obtain ⟨h2, hv⟩ := saveShipment_some _ _ h
  subst h2
  simp only [validateShipment, Bool.and_eq_true, decide_eq_true_eq] at hv
  by_cases hc : ({ s with deliveryAttempts := s.deliveryAttempts + 1 } : Shipment).deliveryAttempts ≥ 3
  · rw [if_pos hc] at hv ⊢
    refine ⟨?_, ?_, ?_⟩
    · rw [addTrackingEvent_deliveryAttempts]
    · have h1 := hv.1
      rw [addTrackingEvent_deliveryAttempts] at h1
      rw [addTrackingEvent_deliveryAttempts]
      exact h1
    · intro _
      refine ⟨?_, ?_, ?_⟩
      · rw [addTrackingEvent_tracking]
      · rw [addTrackingEvent_currentStatus]
        rfl
      · rw [addTrackingEvent_progress_eq]
        split <;> rfl
  · rw [if_neg hc] at hv ⊢
    refine ⟨rfl, hv.1, ?_⟩
    intro h3
    have hc2 : ¬ s.deliveryAttempts + 1 ≥ 3 := hc
    have h3b : s.deliveryAttempts + 1 = 3 := h3
    omega

/-- Witness for C9 at a shipment with two booked attempts: the third bump
persists, reaches the cap, and leaves the progress untouched. -/
theorem incrementDeliveryAttempts_contract_witness :
    exShipThirdAttempt.deliveryAttempts = exShipTwoAttempts.deliveryAttempts + 1 ∧
    exShipThirdAttempt.deliveryAttempts ≤ 3 ∧
    exShipThirdAttempt.progress = exShipTwoAttempts.progress := by
  have h := incrementDeliveryAttempts_contract exShipTwoAttempts 5000 exShipThirdAttempt
    (by decide)
  exact ⟨h.1, h.2.1, (h.2.2 (by decide)).2.2⟩

/-- C6: the anonymous tracking response is a function of only the
anonymously visible data — tracking number, current status, progress, the
redacted event list (status, location, description, timestamp), the
estimated delivery and the service type.  Shipments differing only in the
sender, recipient, package or remaining service fields, or in per-event
agent identity or coordinates, are indistinguishable anonymously; by
construction the response type carries none of those fields. -/
theorem anonymous_lookup_noninterference (s1 s2 : Shipment) (now : Nat)
    (h1 : s1.trackingNumber = s2.trackingNumber)
    (h2 : s1.currentStatus = s2.currentStatus)
    (h3 : s1.progress = s2.progress)
    (h4 : s1.tracking.map redactEvent = s2.tracking.map redactEvent)
    (h5 : s1.service.estimatedDelivery = s2.service.estimatedDelivery)
    (h6 : s1.service.type = s2.service.type) :
    anonymousTrackResponse s1 now = anonymousTrackResponse s2 now := by
  unfold anonymousTrackResponse Shipment.isDelayed
  rw [h1, h2, h3, h4, h5, h6]

/-- Witness for C6: two structurally different concrete shipments (distinct
sender, package value, service cost, event agent and coordinates) with
identical anonymous responses. -/
theorem anonymous_lookup_noninterference_witness :
    exShipVisibleA ≠ exShipVisibleB ∧
    anonymousTrackResponse exShipVisibleA 999 = anonymousTrackResponse exShipVisibleB 999 :=
  ⟨by decide, anonymous_lookup_noninterference exShipVisibleA exShipVisibleB 999 (by decide)
    (by decide) (by decide) (by decide) (by decide) (by decide)⟩

/-- C7: tracking-number lookup depends only on the uppercased query (hence
it is case-insensitive), any hit is an active shipment stored under the
normalised query, and when no active shipment matches the result is the
non-error absent value. -/
theorem findByTrackingNumber_contract (db : List Shipment) (tn : String) :
    (∀ tn2 : String, jsToUpper tn = jsToUpper tn2 →
        findByTrackingNumber db tn = findByTrackingNumber db tn2) ∧
    (∀ s : Shipment, findByTrackingNumber db tn = some s →
        s.isActive = true ∧ s.trackingNumber = jsToUpper tn) ∧
    ((∀ s ∈ db, s.trackingNumber = jsToUpper tn → s.isActive = false) →
        findByTrackingNumber db tn = none) := by
  refine ⟨?_, ?_, ?_⟩
  · intro tn2 he
    unfold findByTrackingNumber
    rw [he]
  · intro s hs
    have hp := List.find?_some hs
    simp only [Bool.and_eq_true, beq_iff_eq] at hp
    exact ⟨hp.2, hp.1⟩
  · intro hall
    unfold findByTrackingNumber
    rw [List.find?_eq_none]
    intro s hmem hp
    simp only [Bool.and_eq_true, beq_iff_eq] at hp
    have hfa := hall s hmem hp.1
    rw [hfa] at hp
    exact Bool.false_ne_true hp.2

/-- Witness for C7: on a concrete store, a lower-case query resolves like
its normalised form, and a query with no active match yields the absent
value rather than an error. -/
theorem findByTrackingNumber_contract_witness :
    findByTrackingNumber exShipDb "ind123456789" = findByTrackingNumber exShipDb "IND123456789" ∧
    findByTrackingNumber exShipDb "IND999999999" = none := by
  constructor
  · exact (findByTrackingNumber_contract exShipDb "ind123456789").1 "IND123456789" (by decide)
  · exact (findByTrackingNumber_contract exShipDb "IND999999999").2.2 (by decide)

/-- C10: when every stored account carrying the looked-up (lowercased)
email is deactivated, findByCredentials fails with the same generic
invalid-credentials error it raises for a missing account — whatever the
password comparison would return — and leaves the store, hence the
failed-attempt counter and lock state, unchanged. -/
theorem inactive_account_invalid_credentials (db : List User)
    (compare : String → String → Bool) (email password : String) (now : Nat)
    (hin : ∀ u ∈ db, u.email = jsToLower email → u.isActive = false) :
    findByCredentials db compare email password now
      = (Except.error AuthError.invalidCredentials, db) := by
  unfold findByCredentials
  have hnone : findUserForLogin db email = none := by
    unfold findUserForLogin
    rw [List.find?_eq_none]
    intro u hmem hp
    simp only [Bool.and_eq_true, beq_iff_eq] at hp
    have hfa := hin u hmem hp.1
    rw [hfa] at hp
    exact Bool.false_ne_true hp.2
  rw [hnone]

/-- Witness for C10: a deactivated account whose stored credential the
comparison oracle accepts still receives the generic error and no state
change. -/
theorem inactive_account_invalid_credentials_witness :
    findByCredentials exUserDbInactive (fun p q => p == q) "ravi@example.com" "pw" 500
      = (Except.error AuthError.invalidCredentials, exUserDbInactive) :=
  inactive_account_invalid_credentials exUserDbInactive (fun p q => p == q)
    "ravi@example.com" "pw" 500 (by decide)

/-- C3: the lockout protocol of findByCredentials for an account that the
login lookup resolves (so it exists and is active).  While the lock
timestamp lies in the future, the distinct locked-account error is returned
and nothing is written, whatever the password comparison would say.  A
failed comparison on an unlocked account books incLoginAttempts: restart at
one with the lock cleared when a previous lock has expired, otherwise
increment by one, setting the lock to now plus two hours when the
post-increment count reaches the cap of five.  A successful comparison on
an unlocked account (in particular after lock expiry) persists a zero
counter and stamps the last login. -/
theorem findByCredentials_lockout_protocol (db : List User)
    (compare : String → String → Bool) (email password : String) (now : Nat) (u : User)
    (hfound : findUserForLogin db email = some u) :
    (u.isLocked now = true →
      findByCredentials db compare email password now
        = (Except.error AuthError.accountLocked, db)) ∧
    (u.isLocked now = false → compare password u.password = false →
      findByCredentials db compare email password now
        = (Except.error AuthError.invalidCredentials,
            updateUser db u.id (u.incLoginAttempts now)) ∧
      (u.lockExpired now = true →
        (u.incLoginAttempts now).loginAttempts = 1 ∧
        (u.incLoginAttempts now).lockUntil = none) ∧
      (u.lockExpired now = false →
        (u.incLoginAttempts now).loginAttempts = u.loginAttempts + 1 ∧
        (u.loginAttempts + 1 = maxLoginAttempts →
          (u.incLoginAttempts now).lockUntil = some (now + lockTimeMs)))) ∧
    (u.isLocked now = false → compare password u.password = true →
      findByCredentials db compare email password now
        = (Except.ok u,
            updateUser db u.id
              ((if u.loginAttempts > 0 then u.resetLoginAttempts else u).updateLastLogin now)) ∧
      ((if u.loginAttempts > 0 then u.resetLoginAttempts else u).updateLastLogin
          now).loginAttempts = 0 ∧
      ((if u.loginAttempts > 0 then u.resetLoginAttempts else u).updateLastLogin
          now).lastLogin = some now) := by
  refine ⟨?_, ?_, ?_⟩
  · intro hl
    unfold findByCredentials
    rw [hfound]
    simp [hl]
  · intro hl hcmp
    refine ⟨?_, ?_, ?_⟩
    · unfold findByCredentials
      rw [hfound]
      simp [hl, hcmp]
    · intro hle
      unfold User.incLoginAttempts
      rw [if_pos hle]
      exact ⟨rfl, rfl⟩
    · intro hle
      constructor
      · unfold User.incLoginAttempts
        rw [if_neg (by simp [hle])]
        by_cases hmax : (decide (u.loginAttempts + 1 ≥ maxLoginAttempts) && !(u.isLocked now)) = true
        · rw [if_pos hmax]
        · rw [if_neg hmax]
      · intro hfive
        unfold User.incLoginAttempts
        rw [if_neg (by simp [hle])]
        rw [if_pos (by simp [hl, hfive, maxLoginAttempts])]
  · intro hl hcmp
    refine ⟨?_, ?_, ?_⟩
    · unfold findByCredentials
      rw [hfound]
      simp [hl, hcmp]
    · by_cases hz : u.loginAttempts > 0
      · simp [hz, User.resetLoginAttempts, User.updateLastLogin]
      · simp [hz, User.updateLastLogin]
        omega
    · by_cases hz : u.loginAttempts > 0 <;>
        simp [hz, User.resetLoginAttempts, User.updateLastLogin]

/-- Witness for C3: on a concrete store holding an unlocked account at four
failed attempts, a fifth failure with a mixed-case email books the
lockout: counter five, lock set to the submission time plus two hours. -/
theorem findByCredentials_lockout_protocol_witness :
    findByCredentials exUserDb (fun p q => p == q) "Asha@Example.com" "wrong" 1000
      = (Except.error AuthError.invalidCredentials,
          updateUser exUserDb "u1" (exUserNearLock.incLoginAttempts 1000)) ∧
    (exUserNearLock.incLoginAttempts 1000).loginAttempts = 5 ∧
    (exUserNearLock.incLoginAttempts 1000).lockUntil = some (1000 + lockTimeMs) := by
  have h := findByCredentials_lockout_protocol exUserDb (fun p q => p == q)
    "Asha@Example.com" "wrong" 1000 exUserNearLock (by decide)
  have hb := h.2.1 (by decide) (by decide)
  refine ⟨hb.1, by decide, ?_⟩
  exact ((hb.2.2 (by decide)).2 (by decide))

/-- C8 counterexample: `exShipForeign` is stored, active, and its sender
contact email equals the registered email of account `exAcct`, yet
`findByUser` applied to the account's identifier returns nothing — the
account's registered email is never consulted, so the result differs from
the claimed one. -/
theorem findByUser_email_association_counterexample :
    findByUser exShipDbForeign exAcct.id = [] ∧
    exShipForeign ∈ exShipDbForeign ∧
    exShipForeign.isActive = true ∧
    exShipForeign.sender.email = some exAcct.email ∧
    findByUser exShipDbForeign exAcct.id ≠ findByUserClaimed exShipDbForeign exAcct := by
  refine ⟨by decide, by decide, by decide, by decide, by decide⟩

/-- C8 amended: `findByUser db x` returns exactly the active shipments
whose creator reference equals x, or whose sender or recipient contact
email equals x — the single argument is compared against all three fields,
and the account's registered email plays no role — ordered newest-first by
creation time (a sorted permutation of the matching sub-list). -/
theorem findByUser_amended_contract (db : List Shipment) (x : String) :
    (∀ s : Shipment, s ∈ findByUser db x ↔
      (s ∈ db ∧ s.isActive = true ∧
        (s.createdBy = x ∨ s.sender.email = some x ∨ s.recipient.email = some x))) ∧
    (findByUser db x).Pairwise newestFirst ∧
    (findByUser db x).Perm (db.filter (fun s =>
      (s.createdBy == x || s.sender.email == some x || s.recipient.email == some x)
        && s.isActive)) := by
  have hperm := List.perm_insertionSort newestFirst (db.filter (fun s =>
    (s.createdBy == x || s.sender.email == some x || s.recipient.email == some x)
      && s.isActive))
  refine ⟨?_, ?_, hperm⟩
  · intro s
    rw [show findByUser db x = List.insertionSort newestFirst (db.filter (fun s =>
      (s.createdBy == x || s.sender.email == some x || s.recipient.email == some x)
        && s.isActive)) from rfl]
    rw [hperm.mem_iff, List.mem_filter]
    simp only [Bool.and_eq_true, Bool.or_eq_true, beq_iff_eq]
    tauto
  · exact List.sorted_insertionSort newestFirst _

/-- Witness for C8 (amended): the creator clause does fire on the concrete
store when the creator identifier itself is passed. -/
theorem findByUser_amended_contract_witness :
    exShipForeign ∈ findByUser exShipDbForeign "u2" :=
  ((findByUser_amended_contract exShipDbForeign "u2").1 exShipForeign).mpr (by decide)

/-- Every character the numeral printer emits for a digit value is a
decimal digit character. -/
theorem digitChar_isDigit (m : Nat) (h : m < 10) : (Nat.digitChar m).isDigit = true := by
  interval_cases m <;> decide

/-- All characters accumulated by the core numeral printer are decimal
digits, given a digit accumulator. -/
theorem toDigitsCore_digits (f : Nat) : ∀ (n : Nat) (ds : List Char),
    (∀ c ∈ ds, c.isDigit = true) → ∀ c ∈ Nat.toDigitsCore 10 f n ds, c.isDigit = true := by
  induction f with
  | zero =>
    intro n ds hds c hc
    exact hds c hc
  | succ f ih =>
    intro n ds hds c hc
    simp only [Nat.toDigitsCore] at hc
    have hd : ∀ x ∈ Nat.digitChar (n % 10) :: ds, x.isDigit = true := by
      intro x hx
      rcases List.mem_cons.mp hx with hx | hx
      · rw [hx]
        exact digitChar_isDigit _ (Nat.mod_lt n (by norm_num))
      · exact hds x hx
    by_cases h0 : n / 10 = 0
    · rw [if_pos h0] at hc
      exact hd c hc
    · rw [if_neg h0] at hc
      exact ih (n / 10) _ hd c hc

/-- Exact output length of the core numeral printer with enough fuel. -/
theorem toDigitsCore_len (f : Nat) : ∀ (n : Nat) (ds : List Char), 0 < f → n < 10 ^ f →
    (Nat.toDigitsCore 10 f n ds).length = Nat.log 10 n + 1 + ds.length := by
  induction f with
  | zero =>
    intro n ds h0 _
    exact absurd h0 (lt_irrefl 0)
  | succ f ih =>
    intro n ds _ hn
    simp only [Nat.toDigitsCore]
    by_cases h0 : n / 10 = 0
    · rw [if_pos h0]
      have hlt : n < 10 := by omega
      have hlog : Nat.log 10 n = 0 := Nat.log_eq_zero_iff.mpr (Or.inl hlt)
      simp [hlog]
      omega
    · rw [if_neg h0]
      have hge : 10 ≤ n := by omega
      have hf : 0 < f := by
        rcases Nat.eq_zero_or_pos f with hf0 | hf0
        · subst hf0
          rw [pow_one] at hn
          omega
        · exact hf0
      have hdiv : n / 10 < 10 ^ f := by
        rw [Nat.div_lt_iff_lt_mul (by norm_num : (0:Nat) < 10)]
        calc n < 10 ^ (f + 1) := hn
          _ = 10 ^ f * 10 := by rw [pow_succ]
      rw [ih (n / 10) (Nat.digitChar (n % 10) :: ds) hf hdiv]
      have hlog : Nat.log 10 n = Nat.log 10 (n / 10) + 1 := by
        have h1 := Nat.log_div_base 10 n
        have h2 : 0 < Nat.log 10 n := Nat.log_pos (by norm_num) hge
        omega
      rw [hlog]
      simp
      omega

/-- The decimal numeral of a number in the nine-digit range has exactly
nine characters, all decimal digits. -/
theorem repr_nine_digits (n : Nat) (h1 : 100000000 ≤ n) (h2 : n ≤ 999999999) :
    (Nat.repr n).data.length = 9 ∧ ∀ c ∈ (Nat.repr n).data, c.isDigit = true := by
  have hd : (Nat.repr n).data = Nat.toDigitsCore 10 (n + 1) n [] := rfl
  have e8 : (10:Nat) ^ 8 = 100000000 := by norm_num
  have e9 : (10:Nat) ^ 9 = 1000000000 := by norm_num
  have hfuel : n < 10 ^ (n + 1) :=
    lt_of_lt_of_le (Nat.lt_pow_self (by norm_num) n)
      (Nat.pow_le_pow_right (by norm_num) (Nat.le_succ n))
  constructor
  · rw [hd, toDigitsCore_len (n + 1) n [] (Nat.succ_pos n) hfuel]
    have hlog : Nat.log 10 n = 8 :=
      Nat.log_eq_of_pow_le_of_lt_pow (by rw [e8]; exact h1) (by rw [e9]; omega)
    simp [hlog]
  · rw [hd]
    exact toDigitsCore_digits (n + 1) n [] (by simp)

/-- C5: a tracking number the generator returns consists of the fixed
three-letter IND head followed by the nine-digit decimal numeral of a draw
in the range 100000000–999999999, so it matches ^[A-Z]{3}\d{9}$; it is
absent from the store of all shipments, active or inactive (the existence
check has no active filter); and on a collision with a stored number the
generator retries with the next draw of the stream. -/
theorem trackingNumber_generation_spec (existing : List String) (draws : Nat → Nat)
    (fuel : Nat) (tn : String)
    (hr : ∀ i, 100000000 ≤ draws i ∧ draws i ≤ 999999999)
    (h : genTrackingNumber existing draws fuel = some tn) :
    matchesTrackingPattern tn = true ∧ existing.contains tn = false ∧
    (∀ ex : List String, ∀ dr : Nat → Nat, ∀ f : Nat,
      ex.contains ("IND" ++ toString (dr 0)) = true →
      genTrackingNumber ex dr (f + 1) = genTrackingNumber ex (fun i => dr (i + 1)) f) := by
  have main : ∀ fuel2 : Nat, ∀ dr : Nat → Nat,
      (∀ i, 100000000 ≤ dr i ∧ dr i ≤ 999999999) →
      genTrackingNumber existing dr fuel2 = some tn →
      matchesTrackingPattern tn = true ∧ existing.contains tn = false := by
    intro fuel2
    induction fuel2 with
    | zero =>
      intro dr _ hg
      cases hg
    | succ f2 ih =>
      intro dr hdr hg
      simp only [genTrackingNumber] at hg
      by_cases hcol : existing.contains ("IND" ++ toString (dr 0)) = true
      · rw [if_pos hcol] at hg
        exact ih (fun i => dr (i + 1)) (fun i => hdr (i + 1)) hg
      · rw [if_neg hcol] at hg
        have htn : tn = "IND" ++ toString (dr 0) := (Option.some.inj hg).symm
        subst htn
        refine ⟨?_, by simpa using hcol⟩
        have h9 := repr_nine_digits (dr 0) (hdr 0).1 (hdr 0).2
        have hdata : ("IND" ++ toString (dr 0)).data
            = 'I' :: 'N' :: 'D' :: (Nat.repr (dr 0)).data := by
          rw [String.data_append]
          rfl
        unfold matchesTrackingPattern
        rw [hdata]
        show ((((['I', 'N', 'D'] : List Char)).length == 3)
            && (['I', 'N', 'D'] : List Char).all Char.isUpper
            && ((Nat.repr (dr 0)).data.length == 9)
            && (Nat.repr (dr 0)).data.all Char.isDigit) = true
        simp only [Bool.and_eq_true]
        exact ⟨⟨⟨by decide, by decide⟩, beq_iff_eq.mpr h9.1⟩, List.all_eq_true.mpr h9.2⟩
  refine ⟨(main fuel draws hr h).1, (main fuel draws hr h).2, ?_⟩
  intro ex dr f hcol
  simp only [genTrackingNumber]
  rw [if_pos hcol]

/-- Witness for C5: one stored number, a stream whose first draw collides,
fuel two — the generator retries and returns a fresh well-formed number. -/
theorem trackingNumber_generation_spec_witness :
    (∀ i, 100000000 ≤ exDraws i ∧ exDraws i ≤ 999999999) ∧
    matchesTrackingPattern "IND100000001" = true ∧
    List.contains exExisting "IND100000001" = false := by
  have hr : ∀ i, 100000000 ≤ exDraws i ∧ exDraws i ≤ 999999999 := by
    intro i
    unfold exDraws
    omega
  have h := trackingNumber_generation_spec exExisting exDraws 2 "IND100000001" hr (by decide)
  exact ⟨hr, h.1, h.2.1⟩
